import Mathlib

/-
Verification development for the GroundTruth AI Surveyor offline-first
survey pipeline: the Local Store (StorageService), the Verification
Recorder (VerificationService) and the Sync Coordinator (SyncService),
shallowly embedded as pure Lean functions.

Modelling conventions:
* JavaScript strings are Lean `String`s; object fields that may be absent
  are `Option`s; a JS `null` stored in a field is also modelled as `none`
  where the code only ever distinguishes null/undefined from present.
* ISO timestamp strings produced by the environment's clock are passed in
  as explicit parameters.  Where the code also needs the epoch-millisecond
  value of a timestamp (Date arithmetic), the time point is passed as a
  `JSTime` carrying both the ISO text and the millisecond value.
* Geo-coordinates are produced by a simulated provider and only ever flow
  through the system opaquely (stored, counted, JSON-serialised).  Their
  numeric fields are modelled by the JSON literal text JS would serialise
  them to, which is all the code observes about them.
* The two storage backends (IndexedDB and the localStorage fallback)
  implement the same logical map keyed by `surveyId`; the store is
  modelled once as a list of packets with keyed upsert/lookup.
-/

namespace GroundTruth

/-- Geo-sample as produced by `simulateGetLocation`: latitude, longitude
and accuracy are JSON number literal texts, timestamp an ISO string. -/
structure Location where
  latitude : String
  longitude : String
  accuracy : String
  timestamp : String
deriving DecidableEq, Repr

/-- Time point: the ISO string the code stores, together with the epoch
milliseconds `Date.parse` would yield for it (used by Date arithmetic). -/
structure JSTime where
  iso : String
  ms : Int
deriving DecidableEq, Repr

/-- Entry appended to `answerTimestamps` by `VerificationService.logAnswer`. -/
structure AnswerLog where
  questionId : String
  timestamp : String
  location : Option Location
  answerType : String
  answerLength : Nat
deriving DecidableEq, Repr

/-- Device metadata snapshot from `VerificationService.getDeviceInfo`. -/
structure DeviceInfo where
  userAgent : String
  platform : String
  language : String
  timezone : String
  screenResolution : String
  timestamp : String
deriving DecidableEq, Repr

/-- The mutable `verificationData` object of `VerificationService`.
`duration` and `verificationHash` are only added by `completeSurvey`,
hence `Option`. -/
structure VerificationData where
  surveyId : Option String
  startTime : Option JSTime
  endTime : Option JSTime
  startLocation : Option Location
  endLocation : Option Location
  environmentPhoto : Option String
  answerTimestamps : List AnswerLog
  locationHistory : List Location
  deviceInfo : Option DeviceInfo
  duration : Option Int
  verificationHash : Option String
deriving DecidableEq, Repr

/-- The finalized packet returned by `completeSurvey`:
`{...verificationData, completedAt, version}`. -/
structure VerificationPacket where
  record : VerificationData
  completedAt : String
  version : String
deriving DecidableEq, Repr

/-- The survey packet handed to `StorageService.saveSurveyPacket` by the
survey screen (`handleComplete` builds `{surveyId, answers, notes,
verification, completedAt, status}`); `answers` and `notes` are opaque to
the storage and sync layer and modelled as strings. -/
structure PacketIn where
  surveyId : String
  answers : String
  notes : String
  verification : Option VerificationPacket
  completedAt : String
  status : Option String
deriving DecidableEq, Repr

/-- A packet as held in the store after `saveSurveyPacket` stamped it:
`{...packet, surveyId, status: packet.status || 'completed',
syncStatus: 'pending', createdAt: now}`.  `syncStatus` is kept as the
raw string the code writes. -/
structure StoredPacket where
  surveyId : String
  answers : String
  notes : String
  verification : Option VerificationPacket
  completedAt : String
  status : String
  syncStatus : String
  createdAt : String
  syncedAt : Option String
deriving DecidableEq, Repr

/-- First-match lookup by `surveyId`, as both backends implement it
(`localStorage.getItem` / IndexedDB `get` on the `surveyId` key path). -/
def lookup : List StoredPacket → String → Option StoredPacket
  | [], _ => none
  | p :: rest, surveyId =>
    if p.surveyId = surveyId then some p else lookup rest surveyId

/-- Keyed upsert, as both backends implement it (`localStorage.setItem` /
IndexedDB `put` replace the record under the key, or insert it). -/
def upsert : List StoredPacket → StoredPacket → List StoredPacket
  | [], p => [p]
  | q :: rest, p =>
    if q.surveyId = p.surveyId then p :: rest else q :: upsert rest p

/-- JavaScript `packet.status || 'completed'`: the only falsy string is
the empty string, and an absent field is falsy. -/
def jsOrCompleted : Option String → String
  | some v => if v = "" then "completed" else v
  | none => "completed"

/-- The stamped `packetData` object built inside `saveSurveyPacket`:
`{...packet, surveyId, status: packet.status || 'completed',
syncStatus: 'pending', createdAt: now}`. -/
def packetData (packet : PacketIn) (now : String) : StoredPacket :=
  { surveyId := packet.surveyId
    answers := packet.answers
    notes := packet.notes
    verification := packet.verification
    completedAt := packet.completedAt
    status := jsOrCompleted packet.status
    syncStatus := "pending"
    createdAt := now
    syncedAt := none }

/-- StorageService.saveSurveyPacket: builds the stamped `packetData`
(`syncStatus: 'pending'`, `createdAt: now`, defaulted `status`) and
upserts it under `surveyId`; returns the new store and the stored packet. -/
def saveSurveyPacket (store : List StoredPacket) (packet : PacketIn)
    (now : String) : List StoredPacket × StoredPacket :=
  (upsert store (packetData packet now), packetData packet now)

/-- StorageService.markPacketAsSynced: if a packet is stored under the id,
set `syncStatus = 'synced'` and `syncedAt = now` and write it back;
otherwise do nothing. -/
def markPacketAsSynced (store : List StoredPacket) (surveyId now : String) :
    List StoredPacket :=
  match lookup store surveyId with
  | none => store
  | some p => upsert store { p with syncStatus := "synced", syncedAt := some now }

/-- StorageService.getSurveyPacketsForSync: all packets with
`syncStatus == 'pending'`. -/
def getSurveyPacketsForSync (store : List StoredPacket) : List StoredPacket :=
  store.filter fun p => decide (p.syncStatus = "pending")

/-- Snapshot returned by `StorageService.getStorageStats`. -/
structure StorageStats where
  totalSurveys : Nat
  completedSurveys : Nat
  pendingSync : Nat
  syncedSurveys : Nat
  lastUpdate : String
deriving DecidableEq, Repr

/-- StorageService.getStorageStats over the packets in the store. -/
def getStorageStats (store : List StoredPacket) (now : String) : StorageStats :=
  { totalSurveys := store.length
    completedSurveys := store.length
    pendingSync := (store.filter fun p => decide (p.syncStatus = "pending")).length
    syncedSurveys := (store.filter fun p => decide (p.syncStatus = "synced")).length
    lastUpdate := now }

/-- A store operation: a `saveSurveyPacket` or a `markPacketAsSynced`
call, with the wall-clock ISO string the call observes. -/
inductive StoreOp
  | save (p : PacketIn) (now : String)
  | markSynced (surveyId now : String)
deriving DecidableEq, Repr

/-- Apply one store operation. -/
def applyOp (store : List StoredPacket) : StoreOp → List StoredPacket
  | .save p now => (saveSurveyPacket store p now).1
  | .markSynced surveyId now => markPacketAsSynced store surveyId now

/-- Apply a sequence of store operations in order. -/
def applyOps (store : List StoredPacket) (ops : List StoreOp) :
    List StoredPacket :=
  ops.foldl applyOp store

/-- A stored packet's `syncStatus` is one of the two written values. -/
def statusOK (p : StoredPacket) : Prop :=
  p.syncStatus = "pending" ∨ p.syncStatus = "synced"

lemma lookup_upsert_self (s : List StoredPacket) (p : StoredPacket) :
    lookup (upsert s p) p.surveyId = some p := by
  induction s with
  | nil => simp [upsert, lookup]
  | cons q rest ih =>
    by_cases h : q.surveyId = p.surveyId
    · simp [upsert, lookup, h]
    · simp [upsert, lookup, h, ih]

lemma lookup_upsert_ne (s : List StoredPacket) (p : StoredPacket)
    (id : String) (h : id ≠ p.surveyId) :
    lookup (upsert s p) id = lookup s id := by
  induction s with
  | nil =>
    have h' : ¬ p.surveyId = id := fun hh => h hh.symm
    simp [upsert, lookup, h']
  | cons q rest ih =>
    by_cases hq : q.surveyId = p.surveyId
    · have h' : ¬ p.surveyId = id := fun hh => h hh.symm
      have hq' : ¬ q.surveyId = id := by rw [hq]; exact h'
      simp [upsert, lookup, hq, h', hq']
    · by_cases hid : q.surveyId = id
      · simp [upsert, lookup, hq, hid, h]
      · simp [upsert, lookup, hq, hid, h, ih]

lemma mem_upsert {s : List StoredPacket} {p q : StoredPacket}
    (h : q ∈ upsert s p) : q = p ∨ q ∈ s := by
  induction s with
  | nil =>
    simp [upsert] at h
    exact Or.inl h
  | cons r rest ih =>
    by_cases hr : r.surveyId = p.surveyId
    · simp [upsert, hr] at h
      rcases h with h | h
      · exact Or.inl h
      · exact Or.inr (List.mem_cons_of_mem _ h)
    · simp [upsert, hr] at h
      rcases h with h | h
      · exact Or.inr (List.mem_cons.mpr (Or.inl h))
      · rcases ih h with h' | h'
        · exact Or.inl h'
        · exact Or.inr (List.mem_cons_of_mem _ h')

lemma lookup_surveyId {s : List StoredPacket} {id : String} {p : StoredPacket}
    (h : lookup s id = some p) : p.surveyId = id := by
  induction s with
  | nil => simp [lookup] at h
  | cons q rest ih =>
    by_cases hq : q.surveyId = id
    · simp [lookup, hq] at h
      rw [← h]
      exact hq
    · simp [lookup, hq] at h
      exact ih h

lemma statusOK_applyOp {store : List StoredPacket}
    (h : ∀ p ∈ store, statusOK p) (op : StoreOp) :
    ∀ p ∈ applyOp store op, statusOK p := by
  intro p hp
  cases op with
  | save pk now =>
    simp only [applyOp, saveSurveyPacket] at hp
    rcases mem_upsert hp with h' | h'
    · left
      rw [h']
      rfl
    · exact h p h'
  | markSynced id now =>
    simp only [applyOp, markPacketAsSynced] at hp
    cases hl : lookup store id with
    | none =>
      rw [hl] at hp
      exact h p hp
    | some p0 =>
      rw [hl] at hp
      rcases mem_upsert hp with h' | h'
      · right
        rw [h']
      · exact h p h'

lemma statusOK_applyOps (ops : List StoreOp) :
    ∀ store : List StoredPacket, (∀ p ∈ store, statusOK p) →
      ∀ p ∈ applyOps store ops, statusOK p := by
  induction ops with
  | nil =>
    intro store h
    exact h
  | cons op rest ih =>
    intro store h
    exact ih (applyOp store op) (statusOK_applyOp h op)

lemma filter_pending_add_synced (l : List StoredPacket)
    (h : ∀ p ∈ l, statusOK p) :
    (l.filter fun p => decide (p.syncStatus = "pending")).length
      + (l.filter fun p => decide (p.syncStatus = "synced")).length
      = l.length := by
  induction l with
  | nil => simp
  | cons p rest ih =>
    have hrest : ∀ q ∈ rest, statusOK q :=
      fun q hq => h q (List.mem_cons_of_mem _ hq)
    have hr := ih hrest
    rcases h p (List.mem_cons_self p rest) with hp | hp
    · simp [List.filter_cons, hp]
      omega
    · simp [List.filter_cons, hp]
      omega

/-- Example input packet used by concrete witnesses and counterexamples. -/
def exPacketIn : PacketIn :=
  { surveyId := "s1"
    answers := "a1"
    notes := "n1"
    verification := none
    completedAt := "2024-01-01T01:00:00.000Z"
    status := some "completed" }

/-- C1 counterexample: save `s1`, mark it synced (store then holds it with
`syncStatus = 'synced'`), save the same packet again — the stored copy is
back to `'pending'`, a backward transition performed by `save` itself. -/
theorem c1_save_resets_synced_to_pending :
    (lookup (markPacketAsSynced ((saveSurveyPacket [] exPacketIn "t0").1)
        "s1" "t1") "s1").map StoredPacket.syncStatus = some "synced" ∧
    (lookup ((saveSurveyPacket (markPacketAsSynced
        ((saveSurveyPacket [] exPacketIn "t0").1) "s1" "t1")
        exPacketIn "t2").1) "s1").map StoredPacket.syncStatus = some "pending" ∧
    ("pending" : String) ≠ "synced" := by
  refine ⟨?_, ?_, ?_⟩ <;> decide

/-- C1 (amended): `save` always stores the packet with `syncStatus =
'pending'` (an upsert keyed by `surveyId`, so re-saving a packet whose
stored copy is `'synced'` resets it to `'pending'`); `markSynced` is the
only operation writing `'synced'`: on a stored id it sets exactly that
packet to `'synced'` (stamping `syncedAt`) and leaves every other id's
lookup unchanged, and on a nonexistent id it leaves the store unchanged. -/
theorem save_stamps_pending_markSynced_sets_synced :
    (∀ (store : List StoredPacket) (packet : PacketIn) (now : String),
      (lookup (saveSurveyPacket store packet now).1 packet.surveyId).map
        StoredPacket.syncStatus = some "pending") ∧
    (∀ (store : List StoredPacket) (id now : String) (p0 : StoredPacket),
      lookup store id = some p0 →
        lookup (markPacketAsSynced store id now) id
          = some { p0 with syncStatus := "synced", syncedAt := some now } ∧
        ∀ id2, id2 ≠ id →
          lookup (markPacketAsSynced store id now) id2 = lookup store id2) ∧
    (∀ (store : List StoredPacket) (id now : String),
      lookup store id = none → markPacketAsSynced store id now = store) := by
  refine ⟨?_, ?_, ?_⟩
  · intro store packet now
    have h := lookup_upsert_self store (packetData packet now)
    simp only [saveSurveyPacket]
    rw [show packet.surveyId = (packetData packet now).surveyId from rfl, h]
    rfl
  · intro store id now p0 hl
    have hid : p0.surveyId = id := lookup_surveyId hl
    constructor
    · simp only [markPacketAsSynced, hl]
      rw [← hid]
      exact lookup_upsert_self store _
    · intro id2 hne
      simp only [markPacketAsSynced, hl]
      exact lookup_upsert_ne store _ id2 (by simpa [hid] using hne)
  · intro store id now hl
    simp only [markPacketAsSynced, hl]

/-- C1 witness: the amended theorem applied at concrete inputs. -/
theorem save_stamps_pending_markSynced_sets_synced_witness :
    (lookup (saveSurveyPacket [] exPacketIn "t0").1 "s1").map
      StoredPacket.syncStatus = some "pending" ∧
    lookup (markPacketAsSynced ((saveSurveyPacket [] exPacketIn "t0").1)
        "s1" "t1") "s1"
      = some { packetData exPacketIn "t0" with
               syncStatus := "synced", syncedAt := some "t1" } ∧
    markPacketAsSynced [] "zz" "t9" = [] := by
  refine ⟨?_, ?_, ?_⟩
  · exact save_stamps_pending_markSynced_sets_synced.1 [] exPacketIn "t0"
  · exact (save_stamps_pending_markSynced_sets_synced.2.1
      ((saveSurveyPacket [] exPacketIn "t0").1) "s1" "t1"
      (packetData exPacketIn "t0") (by decide)).1
  · exact save_stamps_pending_markSynced_sets_synced.2.2 [] "zz" "t9"
      (by decide)

/-- C10: every packet ever held by the store (any sequence of save and
markSynced operations from the empty store) has `syncStatus` equal to
`'pending'` or `'synced'`, so the stats snapshot satisfies
`totalSurveys = pendingSync + syncedSurveys` and
`completedSurveys = totalSurveys`. -/
theorem store_status_dichotomy_and_stats (ops : List StoreOp) (now : String) :
    (∀ p ∈ applyOps [] ops, statusOK p) ∧
    (getStorageStats (applyOps [] ops) now).totalSurveys
      = (getStorageStats (applyOps [] ops) now).pendingSync
        + (getStorageStats (applyOps [] ops) now).syncedSurveys ∧
    (getStorageStats (applyOps [] ops) now).completedSurveys
      = (getStorageStats (applyOps [] ops) now).totalSurveys := by
  have hinv : ∀ p ∈ applyOps [] ops, statusOK p :=
    statusOK_applyOps ops [] (by intro p hp; cases hp)
  refine ⟨hinv, ?_, rfl⟩
  have h := filter_pending_add_synced (applyOps [] ops) hinv
  simp only [getStorageStats]
  omega

/-- C10 witness: the theorem applied at a concrete operation sequence. -/
theorem store_status_dichotomy_and_stats_witness :
    statusOK (packetData exPacketIn "t0") ∧
    (getStorageStats (applyOps []
        [StoreOp.save exPacketIn "t0", StoreOp.markSynced "s1" "t1"])
        "t2").totalSurveys
      = (getStorageStats (applyOps []
          [StoreOp.save exPacketIn "t0", StoreOp.markSynced "s1" "t1"])
          "t2").pendingSync
        + (getStorageStats (applyOps []
            [StoreOp.save exPacketIn "t0", StoreOp.markSynced "s1" "t1"])
            "t2").syncedSurveys := by
  constructor
  · exact (store_status_dichotomy_and_stats [StoreOp.save exPacketIn "t0"]
      "t2").1 (packetData exPacketIn "t0") (by decide)
  · exact (store_status_dichotomy_and_stats
      [StoreOp.save exPacketIn "t0", StoreOp.markSynced "s1" "t1"] "t2").2.1

/-- Outcome of opening the primary backing store (IndexedDB): the API is
present and the open request succeeds, the API is missing from the host
(`!window.indexedDB`), or the open request fires its `onerror` handler. -/
inductive OpenOutcome
  | available
  | unavailable
  | erroring
deriving DecidableEq, Repr

/-- Initialization-relevant state of StorageService. -/
structure StorageInitState where
  isInitialized : Bool
  useLocalStorageFallback : Bool
  dbOpen : Bool
deriving DecidableEq, Repr

/-- StorageService.initializeDB (named `initDB` here): resolves on all
three open outcomes — when IndexedDB is missing or the open request
errors it sets `useLocalStorageFallback` and resolves; on success it
keeps the opened database.  The promise's `reject` callback is never
invoked on any of these paths. -/
def initDB (st : StorageInitState) : OpenOutcome → Except String StorageInitState
  | .unavailable => .ok { st with useLocalStorageFallback := true }
  | .erroring => .ok { st with useLocalStorageFallback := true }
  | .available => .ok { st with dbOpen := true }

/-- StorageService.initialize (named `initStorage` here): early-returns
when already initialized; otherwise awaits `initDB` and marks the service
initialized, turning a rejection of `initDB` into the error
'Storage initialization failed'. -/
def initStorage (st : StorageInitState) (o : OpenOutcome) :
    Except String StorageInitState :=
  if st.isInitialized then .ok st
  else
    match initDB st o with
    | .ok st1 => .ok { st1 with isInitialized := true }
    | .error _ => .error "Storage initialization failed"

/-- C2: initialization never fails the caller — for every outcome of
opening the backing store (available, unavailable, erroring) `initialize`
returns success, and on any initialization error (a fresh service whose
open outcome is not `available`) it degrades to the localStorage
fallback while still reporting success. -/
theorem initStorage_never_fails (st : StorageInitState) (o : OpenOutcome) :
    (∃ st1, initStorage st o = Except.ok st1) ∧
    (st.isInitialized = false → o ≠ OpenOutcome.available →
      ∃ st1, initStorage st o = Except.ok st1
        ∧ st1.useLocalStorageFallback = true) := by
  constructor
  · cases o <;> by_cases h : st.isInitialized = true <;>
      simp [initStorage, initDB, h]
  · intro h1 h2
    cases o
    · exact absurd rfl h2
    · exact ⟨{ st with useLocalStorageFallback := true, isInitialized := true },
        by simp [initStorage, initDB, h1], rfl⟩
    · exact ⟨{ st with useLocalStorageFallback := true, isInitialized := true },
        by simp [initStorage, initDB, h1], rfl⟩

/-- C2 witness: a fresh service with an erroring primary store still
initializes successfully, on the fallback. -/
theorem initStorage_never_fails_witness :
    (∃ st1, initStorage ⟨false, false, false⟩ OpenOutcome.erroring
      = Except.ok st1) ∧
    (∃ st1, initStorage ⟨false, false, false⟩ OpenOutcome.erroring
      = Except.ok st1 ∧ st1.useLocalStorageFallback = true) :=
  ⟨(initStorage_never_fails ⟨false, false, false⟩ OpenOutcome.erroring).1,
   (initStorage_never_fails ⟨false, false, false⟩ OpenOutcome.erroring).2
     rfl (by decide)⟩

/-- A JavaScript answer value as `logAnswer` inspects it: a string, a
non-null object (with its `type` field if any, and its `blob.size` if a
`blob` field is attached), `null`, or any other value (number, boolean,
undefined). -/
inductive JSAnswer
  | str (s : String)
  | obj (ty : Option String) (blobSize : Option Nat)
  | nullv
  | other
deriving DecidableEq, Repr

/-- VerificationService.getAnswerType: strings are 'text'; non-null
objects are 'audio'/'photo' per their `type` field, else 'object';
everything else (including `null`, whose `typeof` is 'object' but which
fails the non-null check) is 'unknown'. -/
def getAnswerType : JSAnswer → String
  | .str _ => "text"
  | .obj ty _ =>
    if ty = some "audio" then "audio"
    else if ty = some "photo" then "photo"
    else "object"
  | .nullv => "unknown"
  | .other => "unknown"

/-- VerificationService.getAnswerLength: string length for strings,
`blob.size` for non-null objects carrying a blob, else 0. -/
def getAnswerLength : JSAnswer → Nat
  | .str s => s.length
  | .obj _ (some n) => n
  | .obj _ none => 0
  | .nullv => 0
  | .other => 0

/-- Answer classification as §4.2 of the spec words it (spec-side
definition, to compare with the source's `getAnswerType`). -/
def specClassify : JSAnswer → String
  | .str _ => "text"
  | .obj (some "audio") _ => "audio"
  | .obj (some "photo") _ => "photo"
  | .obj _ _ => "object"
  | .nullv => "unknown"
  | .other => "unknown"

/-- In-memory state of the VerificationService singleton.  The interval
handle `locationWatcher` is non-null exactly when `isTracking` holds, so
it is represented by `isTracking` alone. -/
structure RecorderState where
  currentSurvey : Option String
  verificationData : VerificationData
  isTracking : Bool
deriving DecidableEq, Repr

/-- The `verificationData` object as the constructor initializes it. -/
def initialVerificationData : VerificationData :=
  { surveyId := none, startTime := none, endTime := none
    startLocation := none, endLocation := none, environmentPhoto := none
    answerTimestamps := [], locationHistory := [], deviceInfo := none
    duration := none, verificationHash := none }

/-- Recorder state as the constructor initializes it. -/
def initialRecorderState : RecorderState :=
  { currentSurvey := none, verificationData := initialVerificationData
    isTracking := false }

/-- VerificationService.startSurvey (success path; the simulated location
provider always resolves): installs a fresh record with the survey id,
start time, initial location and device info, and starts tracking. -/
def startSurvey (st : RecorderState) (surveyId : String) (startT : JSTime)
    (loc : Location) (dev : DeviceInfo) : RecorderState :=
  { st with
    currentSurvey := some surveyId
    verificationData := { initialVerificationData with
      surveyId := some surveyId, startTime := some startT
      startLocation := some loc, deviceInfo := some dev }
    isTracking := true }

/-- VerificationService.logAnswer: warn-and-return when no survey is
active; otherwise append one log entry.  `locResult` is the outcome of
the awaited location sample: `some` on success, `none` when it fails and
the catch branch appends the entry with `location = null`. -/
def logAnswer (st : RecorderState) (questionId : String) (answer : JSAnswer)
    (locResult : Option Location) (now : String) : RecorderState :=
  match st.currentSurvey with
  | none => st
  | some _ =>
    { st with verificationData := { st.verificationData with
        answerTimestamps := st.verificationData.answerTimestamps
          ++ [{ questionId := questionId, timestamp := now
                location := locResult
                answerType := getAnswerType answer
                answerLength := getAnswerLength answer }] } }

/-- One firing of the periodic sampler on the history list: push the new
sample, then keep only the last 10 entries (`slice(-10)`) when the length
exceeds 10. -/
def locationTick (h : List Location) (loc : Location) : List Location :=
  let h1 := h ++ [loc]
  if 10 < h1.length then h1.drop (h1.length - 10) else h1

/-- One firing of the periodic sampler on the recorder state (the
interval callback only runs while the watcher is installed). -/
def samplerTick (st : RecorderState) (loc : Location) : RecorderState :=
  if st.isTracking then
    { st with verificationData := { st.verificationData with
        locationHistory := locationTick st.verificationData.locationHistory loc } }
  else st

/-- VerificationService.stopLocationTracking: clears the watcher and the
tracking flag when a watcher is installed, otherwise does nothing. -/
def stopLocationTracking (st : RecorderState) : RecorderState :=
  if st.isTracking then { st with isTracking := false } else st

/-- JSON string escaping as JSON.stringify performs it. -/
def jsonEscapeChar (c : Char) : String :=
  if c = '"' then "\\\""
  else if c = '\\' then "\\\\"
  else if c = '\x08' then "\\b"
  else if c = '\x09' then "\\t"
  else if c = '\x0a' then "\\n"
  else if c = '\x0c' then "\\f"
  else if c = '\x0d' then "\\r"
  else if c.toNat < 32 then
    "\\u00" ++ String.mk [Nat.digitChar (c.toNat / 16), Nat.digitChar (c.toNat % 16)]
  else String.mk [c]

/-- JSON serialization of a string value. -/
def jsonStr (s : String) : String :=
  "\"" ++ String.join (s.data.map jsonEscapeChar) ++ "\""

/-- JSON serialization of a string-or-null field value. -/
def jsonOptStr : Option String → String
  | none => "null"
  | some s => jsonStr s

/-- JSON serialization of a location object (field order as constructed
by `simulateGetLocation`; the numeric fields are their literal texts). -/
def jsonLocation (l : Location) : String :=
  "\x7b\"latitude\":" ++ l.latitude ++ ",\"longitude\":" ++ l.longitude
    ++ ",\"accuracy\":" ++ l.accuracy
    ++ ",\"timestamp\":" ++ jsonStr l.timestamp ++ "\x7d"

/-- JSON serialization of a location-or-null field value. -/
def jsonOptLocation : Option Location → String
  | none => "null"
  | some l => jsonLocation l

/-- The `dataString` built by `generateVerificationHash`:
`JSON.stringify({surveyId, startTime, endTime, startLocation,
endLocation, answerCount, locationCount})` with keys in insertion
order. -/
def hashDataString (vd : VerificationData) : String :=
  "\x7b\"surveyId\":" ++ jsonOptStr vd.surveyId
    ++ ",\"startTime\":" ++ jsonOptStr (vd.startTime.map JSTime.iso)
    ++ ",\"endTime\":" ++ jsonOptStr (vd.endTime.map JSTime.iso)
    ++ ",\"startLocation\":" ++ jsonOptLocation vd.startLocation
    ++ ",\"endLocation\":" ++ jsonOptLocation vd.endLocation
    ++ ",\"answerCount\":" ++ toString vd.answerTimestamps.length
    ++ ",\"locationCount\":" ++ toString vd.locationHistory.length
    ++ "\x7d"

/-- JavaScript ToInt32: wrap an integer to the signed 32-bit range. -/
def toInt32 (n : Int) : Int := (n + 2 ^ 31) % 2 ^ 32 - 2 ^ 31

/-- One loop iteration of the rolling hash:
`hash = ((hash << 5) - hash) + char; hash = hash & hash` — the shift
operates on the 32-bit wrap of `hash * 32`, and `hash & hash` wraps the
result back to 32 bits. -/
def jsHashStep (h : Int) (c : Nat) : Int :=
  toInt32 (toInt32 (h * 32) - h + c)

/-- The rolling hash over the UTF-16 code units of the data string (all
characters produced here are ASCII, so code units coincide with code
points). -/
def jsHash (s : String) : Int :=
  s.data.foldl (fun h c => jsHashStep h c.toNat) 0

/-- JavaScript `Number.prototype.toString(16)` for a nonnegative integer:
lowercase hex digits, no leading zeros, "0" for 0. -/
def natToHex (n : Nat) : String :=
  String.mk (Nat.toDigits 16 n)

/-- VerificationService.generateVerificationHash:
`Math.abs(hash).toString(16)` of the rolling hash of the data string. -/
def generateVerificationHash (vd : VerificationData) : String :=
  natToHex (jsHash (hashDataString vd)).natAbs

/-- The seven values `generateVerificationHash` serializes: surveyId, the
two stored ISO time strings, the two boundary locations, and the two
list lengths. -/
def hashProjection (vd : VerificationData) :
    Option String × Option String × Option String × Option Location
      × Option Location × Nat × Nat :=
  (vd.surveyId, vd.startTime.map JSTime.iso, vd.endTime.map JSTime.iso,
   vd.startLocation, vd.endLocation, vd.answerTimestamps.length,
   vd.locationHistory.length)

/-- Math.round(d / 1000) for an integer millisecond difference d:
floor(d/1000 + 1/2). -/
def jsRoundDiv1000 (d : Int) : Int := (d + 500).fdiv 1000

/-- VerificationService.completeSurvey: error when no survey is active;
otherwise stop tracking, stamp end location/time, derive duration and
hash, build the `{...verificationData, completedAt, version: '1.0'}`
packet, and reset `currentSurvey` (and only `currentSurvey`) for the
next survey. -/
def completeSurvey (st : RecorderState) (endLoc : Location) (endT : JSTime)
    (completedAtNow : String) :
    Except String (VerificationPacket × RecorderState) :=
  match st.currentSurvey with
  | none => .error "No active survey to complete"
  | some _ =>
    let st1 := stopLocationTracking st
    let vd1 := { st1.verificationData with
      endLocation := some endLoc, endTime := some endT }
    let vd2 := { vd1 with
      duration := vd1.startTime.map fun (s : JSTime) => jsRoundDiv1000 (endT.ms - s.ms) }
    let vd3 := { vd2 with
      verificationHash := some (generateVerificationHash vd2) }
    let packet : VerificationPacket :=
      { record := vd3, completedAt := completedAtNow, version := "1.0" }
    .ok (packet, { st1 with currentSurvey := none, verificationData := vd3 })

/-- Snapshot returned by `VerificationService.getVerificationStatus`. -/
structure VerificationStatus where
  isActive : Bool
  surveyId : Option String
  startTime : Option JSTime
  answerCount : Nat
  locationCount : Nat
  isTracking : Bool
deriving DecidableEq, Repr

/-- VerificationService.getVerificationStatus. -/
def getVerificationStatus (st : RecorderState) : VerificationStatus :=
  { isActive := st.currentSurvey.isSome
    surveyId := st.currentSurvey
    startTime := st.verificationData.startTime
    answerCount := st.verificationData.answerTimestamps.length
    locationCount := st.verificationData.locationHistory.length
    isTracking := st.isTracking }

/-- The completion pipeline above the recorder
(SurveyScreen.handleComplete feeding App.handleCompleteSurvey): finalize
verification; on success build the survey packet and save it to the
store; on verification failure nothing is saved. -/
def handleCompleteFlow (st : RecorderState) (store : List StoredPacket)
    (surveyId answers notes : String) (endLoc : Location) (endT : JSTime)
    (completedAtNow screenNow saveNow : String) :
    RecorderState × List StoredPacket :=
  match completeSurvey st endLoc endT completedAtNow with
  | .error _ => (st, store)
  | .ok (pkt, st1) =>
    (st1, (saveSurveyPacket store
      { surveyId := surveyId, answers := answers, notes := notes
        verification := some pkt, completedAt := screenNow
        status := some "completed" } saveNow).1)

lemma stopLocationTracking_verificationData (st : RecorderState) :
    (stopLocationTracking st).verificationData = st.verificationData := by
  by_cases h : st.isTracking <;> simp [stopLocationTracking, h]

lemma stopLocationTracking_isTracking (st : RecorderState) :
    (stopLocationTracking st).isTracking = false := by
  by_cases h : st.isTracking <;> simp [stopLocationTracking, h]

/-- Concrete start time fixture. -/
def exT0 : JSTime := { iso := "2024-01-01T00:00:00.000Z", ms := 1704067200000 }

/-- Concrete end time fixture. -/
def exT1 : JSTime := { iso := "2024-01-01T00:05:00.000Z", ms := 1704067500000 }

/-- Concrete location fixture. -/
def exLoc : Location :=
  { latitude := "25.6123", longitude := "85.1274", accuracy := "10"
    timestamp := "2024-01-01T00:00:00.100Z" }

/-- Concrete device info fixture. -/
def exDev : DeviceInfo :=
  { userAgent := "ua", platform := "pl", language := "en", timezone := "tz"
    screenResolution := "800x600", timestamp := "2024-01-01T00:00:00.000Z" }

/-- A recorder mid-survey: survey `s1` started, one answer logged, one
periodic location sample taken. -/
def exActiveState : RecorderState :=
  samplerTick (logAnswer (startSurvey initialRecorderState "s1" exT0 exLoc exDev)
    "q1" (JSAnswer.str "yes") (some exLoc) "2024-01-01T00:01:00.000Z") exLoc

lemma foldl_locationTick_eq (samples : List Location) :
    samples.foldl locationTick [] = samples.drop (samples.length - 10) := by
  induction samples using List.reverseRecOn with
  | nil => rfl
  | append_singleton ss a ih =>
    rw [List.foldl_append, List.foldl_cons, List.foldl_nil, ih]
    by_cases hlen : ss.length < 10
    · have h1 : ss.length - 10 = 0 := by omega
      have h2 : (ss ++ [a]).length - 10 = 0 := by
        simp only [List.length_append, List.length_cons, List.length_nil]
        omega
      rw [h1, h2, List.drop_zero, List.drop_zero]
      have hc : ¬ 10 < (ss ++ [a]).length := by
        simp only [List.length_append, List.length_cons, List.length_nil]
        omega
      simp only [locationTick]
      rw [if_neg hc]
    · push_neg at hlen
      have hd10 : (ss.drop (ss.length - 10)).length = 10 := by
        rw [List.length_drop]
        omega
      have hc : 10 < (ss.drop (ss.length - 10) ++ [a]).length := by
        simp only [List.length_append, List.length_cons, List.length_nil, hd10]
        omega
      simp only [locationTick]
      rw [if_pos hc]
      have hlen1 : (ss.drop (ss.length - 10) ++ [a]).length - 10 = 1 := by
        simp only [List.length_append, List.length_cons, List.length_nil, hd10]
      have hlen2 : (ss ++ [a]).length - 10 = (ss.length - 10) + 1 := by
        simp only [List.length_append, List.length_cons, List.length_nil]
        omega
      rw [hlen1, hlen2,
        List.drop_append_of_le_length (by omega : 1 ≤ (ss.drop (ss.length - 10)).length),
        List.drop_append_of_le_length (by omega : ss.length - 10 + 1 ≤ ss.length),
        List.drop_drop]

/-- C6: starting from the empty history installed by `startSurvey`, after
any sequence of periodic samples the history holds at most 10 entries,
and once more than 10 samples have arrived it holds exactly the 10 most
recent ones in arrival order. -/
theorem locationHistory_bounded_and_recent (samples : List Location) :
    (samples.foldl locationTick []).length ≤ 10 ∧
    (10 < samples.length →
      samples.foldl locationTick [] = samples.drop (samples.length - 10)) := by
  constructor
  · rw [foldl_locationTick_eq, List.length_drop]
    omega
  · intro _
    exact foldl_locationTick_eq samples

/-- Eleven concrete location samples. -/
def exSamples : List Location :=
  (List.range 11).map fun i =>
    { latitude := toString i, longitude := "0", accuracy := "1", timestamp := "t" }

/-- C6 witness: the bound and the exact-suffix law at 11 concrete
samples. -/
theorem locationHistory_bounded_and_recent_witness :
    (exSamples.foldl locationTick []).length ≤ 10 ∧
    10 < exSamples.length ∧
    exSamples.foldl locationTick [] = exSamples.drop (exSamples.length - 10) :=
  ⟨(locationHistory_bounded_and_recent exSamples).1, by decide,
   (locationHistory_bounded_and_recent exSamples).2 (by decide)⟩

/-- C7: `logAnswer` never fails the caller — with no active survey it is
a no-op, otherwise it appends exactly one entry {questionId,
timestamp=now, location (absent exactly when the sample failed),
answerType, answerLength} and changes nothing else; and the source's
classifier agrees with the spec's `classify`. -/
theorem logAnswer_total_and_appends_one (st : RecorderState) (q : String)
    (a : JSAnswer) (locResult : Option Location) (now : String) :
    (st.currentSurvey = none → logAnswer st q a locResult now = st) ∧
    (st.currentSurvey ≠ none →
      (logAnswer st q a locResult now).verificationData.answerTimestamps
        = st.verificationData.answerTimestamps
          ++ [{ questionId := q, timestamp := now, location := locResult
                answerType := getAnswerType a
                answerLength := getAnswerLength a }] ∧
      (logAnswer st q a locResult now).currentSurvey = st.currentSurvey ∧
      (logAnswer st q a locResult now).verificationData.locationHistory
        = st.verificationData.locationHistory ∧
      (logAnswer st q a locResult now).isTracking = st.isTracking) ∧
    getAnswerType a = specClassify a := by
  refine ⟨?_, ?_, ?_⟩
  · intro h
    simp [logAnswer, h]
  · intro h
    cases hcs : st.currentSurvey with
    | none => exact absurd hcs h
    | some sid => simp [logAnswer, hcs]
  · cases a with
    | str s => rfl
    | nullv => rfl
    | other => rfl
    | obj ty bs =>
      cases ty with
      | none => rfl
      | some t =>
        by_cases h1 : t = "audio"
        · subst h1
          rfl
        · by_cases h2 : t = "photo"
          · subst h2
            rfl
          · simp [getAnswerType, specClassify, h1, h2]

/-- C7 witness: the theorem applied with an active recorder, a failing
location sample and an audio answer, and with an idle recorder. -/
theorem logAnswer_total_and_appends_one_witness :
    (logAnswer initialRecorderState "q0" (JSAnswer.str "x") none "t") 
      = initialRecorderState ∧
    (logAnswer exActiveState "q2" (JSAnswer.obj (some "audio") (some 42))
        none "t2").verificationData.answerTimestamps
      = exActiveState.verificationData.answerTimestamps
        ++ [{ questionId := "q2", timestamp := "t2", location := none
              answerType := getAnswerType (JSAnswer.obj (some "audio") (some 42))
              answerLength := getAnswerLength (JSAnswer.obj (some "audio") (some 42)) }] ∧
    getAnswerType (JSAnswer.obj (some "audio") (some 42))
      = specClassify (JSAnswer.obj (some "audio") (some 42)) :=
  ⟨(logAnswer_total_and_appends_one initialRecorderState "q0"
      (JSAnswer.str "x") none "t").1 rfl,
   ((logAnswer_total_and_appends_one exActiveState "q2"
      (JSAnswer.obj (some "audio") (some 42)) none "t2").2.1 (by decide)).1,
   (logAnswer_total_and_appends_one exActiveState "q2"
      (JSAnswer.obj (some "audio") (some 42)) none "t2").2.2⟩

/-- C8: `complete()` with no active survey fails with the
VerificationError message and alters neither the recorder state nor any
stored packet (the completion pipeline leaves the store untouched). -/
theorem complete_idle_fails_and_alters_nothing (st : RecorderState)
    (store : List StoredPacket) (surveyId answers notes : String)
    (endLoc : Location) (endT : JSTime)
    (completedAtNow screenNow saveNow : String)
    (h : st.currentSurvey = none) :
    completeSurvey st endLoc endT completedAtNow
      = Except.error "No active survey to complete" ∧
    handleCompleteFlow st store surveyId answers notes endLoc endT
      completedAtNow screenNow saveNow = (st, store) := by
  constructor
  · simp [completeSurvey, h]
  · simp [handleCompleteFlow, completeSurvey, h]

/-- C8 witness: the theorem applied to the idle recorder and the empty
store. -/
theorem complete_idle_fails_and_alters_nothing_witness :
    completeSurvey initialRecorderState exLoc exT1 "tC"
      = Except.error "No active survey to complete" ∧
    handleCompleteFlow initialRecorderState [] "s1" "a" "n" exLoc exT1
      "tC" "tS" "tN" = (initialRecorderState, []) :=
  complete_idle_fails_and_alters_nothing initialRecorderState [] "s1" "a"
    "n" exLoc exT1 "tC" "tS" "tN" rfl

/-- C3 counterexample: completing the concrete mid-survey state yields an
Idle recorder (isActive false, no surveyId) whose status still reports
the completed record's startTime, one logged answer and one location
sample — the record's data is carried over, contradicting the claim that
none of it is. -/
theorem c3_status_carries_old_record_after_complete :
    (completeSurvey exActiveState exLoc exT1
        "2024-01-01T00:05:00.000Z").toOption.map
        (fun r => getVerificationStatus r.2)
      = some { isActive := false, surveyId := none, startTime := some exT0
               answerCount := 1, locationCount := 1, isTracking := false } ∧
    (1 : Nat) ≠ 0 ∧ some exT0 ≠ (none : Option JSTime) := by
  refine ⟨by decide, by decide, by decide⟩

/-- C3 (amended): after a successful `complete()` the recorder reports
isActive = false and no surveyId (and tracking stopped), but the
completed record's startTime, answer count and location count are
retained in `verificationData` and still reported by `status()` until
the next `startSurvey`. -/
theorem complete_resets_active_flag_but_keeps_record (st : RecorderState)
    (endLoc : Location) (endT : JSTime) (now : String) (sid : String)
    (h : st.currentSurvey = some sid) :
    (completeSurvey st endLoc endT now).toOption.map
        (fun r => getVerificationStatus r.2)
      = some { isActive := false, surveyId := none
               startTime := st.verificationData.startTime
               answerCount := st.verificationData.answerTimestamps.length
               locationCount := st.verificationData.locationHistory.length
               isTracking := false } := by
  simp only [completeSurvey, h, Except.toOption, Option.map]
  simp [getVerificationStatus, stopLocationTracking_verificationData,
    stopLocationTracking_isTracking]

/-- C3 witness: the amended theorem applied to the concrete mid-survey
state. -/
theorem complete_resets_active_flag_but_keeps_record_witness :
    (completeSurvey exActiveState exLoc exT1 "tC").toOption.map
        (fun r => getVerificationStatus r.2)
      = some { isActive := false, surveyId := none
               startTime := exActiveState.verificationData.startTime
               answerCount := exActiveState.verificationData.answerTimestamps.length
               locationCount := exActiveState.verificationData.locationHistory.length
               isTracking := false } :=
  complete_resets_active_flag_but_keeps_record exActiveState exLoc exT1
    "tC" "s1" (by decide)

lemma hashDataString_congr {v1 v2 : VerificationData}
    (h : hashProjection v1 = hashProjection v2) :
    hashDataString v1 = hashDataString v2 := by
  simp only [hashProjection, Prod.mk.injEq] at h
  obtain ⟨h1, h2, h3, h4, h5, h6, h7⟩ := h
  simp only [hashDataString, h1, h2, h3, h4, h5, h6, h7]

/-- C9: the verification hash is a deterministic function of the seven
serialized values {surveyId, startTime, endTime, startLocation,
endLocation, answer count, location count}: any two records agreeing on
that projection hash identically. -/
theorem verificationHash_deterministic (v1 v2 : VerificationData)
    (h : hashProjection v1 = hashProjection v2) :
    generateVerificationHash v1 = generateVerificationHash v2 := by
  unfold generateVerificationHash
  rw [hashDataString_congr h]

/-- Record fixture for the hash determinism witness. -/
def exVD1 : VerificationData :=
  { initialVerificationData with
    surveyId := some "s1", startTime := some exT0, startLocation := some exLoc
    answerTimestamps := [{ questionId := "q1", timestamp := "t1"
                           location := none, answerType := "text"
                           answerLength := 3 }] }

/-- A different record with the same hash projection: same seven values,
different answer content, device info and environment photo. -/
def exVD2 : VerificationData :=
  { initialVerificationData with
    surveyId := some "s1", startTime := some exT0, startLocation := some exLoc
    answerTimestamps := [{ questionId := "q9", timestamp := "t9"
                           location := some exLoc, answerType := "audio"
                           answerLength := 999 }]
    deviceInfo := some exDev, environmentPhoto := some "photo" }

/-- C9 witness: two distinct concrete records with equal projections get
equal hashes. -/
theorem verificationHash_deterministic_witness :
    exVD1 ≠ exVD2 ∧ hashProjection exVD1 = hashProjection exVD2 ∧
    generateVerificationHash exVD1 = generateVerificationHash exVD2 :=
  ⟨by decide, rfl, verificationHash_deterministic exVD1 exVD2 rfl⟩

/-- Connectivity/flight state of the SyncService singleton.  The unused
retry bookkeeping (`retryAttempts`, `maxRetries`) and the static S3
configuration carry no behavior and are omitted. -/
structure SyncState where
  isOnline : Bool
  isSyncing : Bool
  syncProgress : Rat
deriving DecidableEq, Repr

/-- The two failure modes of `syncAllPendingData`: 'No internet
connection available' and 'Sync already in progress'. -/
inductive SyncError
  | offline
  | busy
deriving DecidableEq, Repr

/-- One entry of the per-packet `results` list.  The success branch
additionally records an `s3Key` and an upload timestamp and the failure
branch an error message — wall-clock/error-object strings that no logic
reads back; they are omitted here. -/
structure PacketSyncResult where
  success : Bool
  surveyId : String
deriving DecidableEq, Repr

/-- The object returned by `syncAllPendingData`.  `total` and `results`
are `Option`s because the early return for an empty pending list builds
`{success, synced, failed}` without those two fields. -/
structure SyncResult where
  success : Bool
  synced : Nat
  failed : Nat
  total : Option Nat
  results : Option (List PacketSyncResult)
deriving DecidableEq, Repr

/-- The per-packet loop of `syncAllPendingData`, processing packets
serially from index `i`: `uploadOk i` is whether the awaited upload step
for the i-th packet succeeds (the environment's outcome); on success the
packet is marked synced in the store and counted, on failure it is
counted and recorded and the loop continues.  Returns (syncedCount,
failedCount, results, store). -/
def syncLoop : Nat → List StoredPacket → (Nat → Bool) → (Nat → String) →
    List StoredPacket → Nat × Nat × List PacketSyncResult × List StoredPacket
  | _, [], _, _, store => (0, 0, [], store)
  | i, p :: rest, uploadOk, nowOf, store =>
    if uploadOk i then
      let r := syncLoop (i + 1) rest uploadOk nowOf
        (markPacketAsSynced store p.surveyId (nowOf i))
      (r.1 + 1, r.2.1, { success := true, surveyId := p.surveyId } :: r.2.2.1,
       r.2.2.2)
    else
      let r := syncLoop (i + 1) rest uploadOk nowOf store
      (r.1, r.2.1 + 1, { success := false, surveyId := p.surveyId } :: r.2.2.1,
       r.2.2.2)

/-- SyncService.syncAllPendingData: throw offline when connectivity is
down, then throw busy when a run is in flight; otherwise read the
pending packets, early-return the zero result if none, else run the
serial loop and assemble the full result; the `finally` block clears
`isSyncing` and resets `syncProgress` to 0 on every completed call.
Returns (result-or-error, service state, store). -/
def syncAllPendingData (st : SyncState) (store : List StoredPacket)
    (uploadOk : Nat → Bool) (nowOf : Nat → String) :
    Except SyncError SyncResult × SyncState × List StoredPacket :=
  if st.isOnline = false then (.error .offline, st, store)
  else if st.isSyncing then (.error .busy, st, store)
  else
    let pending := getSurveyPacketsForSync store
    if pending.isEmpty then
      (.ok { success := true, synced := 0, failed := 0
             total := none, results := none },
       { st with isSyncing := false, syncProgress := 0 }, store)
    else
      let r := syncLoop 0 pending uploadOk nowOf store
      (.ok { success := r.2.1 == 0, synced := r.1, failed := r.2.1
             total := some pending.length, results := some r.2.2.1 },
       { st with isSyncing := false, syncProgress := 0 }, r.2.2.2)

lemma syncLoop_counts (packets : List StoredPacket) :
    ∀ (i : Nat) (uploadOk : Nat → Bool) (nowOf : Nat → String)
      (store : List StoredPacket),
      (syncLoop i packets uploadOk nowOf store).1
        + (syncLoop i packets uploadOk nowOf store).2.1 = packets.length ∧
      (syncLoop i packets uploadOk nowOf store).2.2.1.length
        = packets.length := by
  induction packets with
  | nil =>
    intro i u n s
    simp [syncLoop]
  | cons p rest ih =>
    intro i u n s
    by_cases h : u i = true
    · obtain ⟨ha, hb⟩ := ih (i + 1) u n (markPacketAsSynced s p.surveyId (n i))
      simp only [syncLoop, h, if_true, List.length_cons]
      constructor
      · omega
      · simp [hb]
    · obtain ⟨ha, hb⟩ := ih (i + 1) u n s
      simp only [syncLoop, h, if_false, Bool.false_eq_true, List.length_cons]
      constructor
      · omega
      · simp [hb]

/-- C4 counterexample: with no pending packets, the early return carries
`success`, `synced` and `failed` only — the `total` field and the
per-packet result list are absent, not 0 and not empty. -/
theorem c4_empty_sync_result_lacks_total_and_results :
    (syncAllPendingData { isOnline := true, isSyncing := false, syncProgress := 0 }
        [] (fun _ => true) (fun _ => "t")).1
      = Except.ok { success := true, synced := 0, failed := 0
                    total := none, results := none } ∧
    (none : Option Nat) ≠ some 0 ∧
    (none : Option (List PacketSyncResult)) ≠ some [] := by
  refine ⟨rfl, by decide, by decide⟩

/-- C4 (amended): every successful non-empty run returns the full
SyncResult — success iff the failed count is 0, synced + failed = total
= pending count, and a per-packet result list of that length; but when
the store holds no pending packets the run returns immediately with
{success: true, synced: 0, failed: 0} carrying no total field and no
per-packet result list. -/
theorem syncAll_result_shape (st : SyncState) (store : List StoredPacket)
    (uploadOk : Nat → Bool) (nowOf : Nat → String)
    (hon : st.isOnline = true) (hbusy : st.isSyncing = false) :
    (getSurveyPacketsForSync store = [] →
      (syncAllPendingData st store uploadOk nowOf).1
        = Except.ok { success := true, synced := 0, failed := 0
                      total := none, results := none }) ∧
    (getSurveyPacketsForSync store ≠ [] →
      ∃ r : SyncResult,
        (syncAllPendingData st store uploadOk nowOf).1 = Except.ok r ∧
        r.success = (r.failed == 0) ∧
        r.synced + r.failed = (getSurveyPacketsForSync store).length ∧
        r.total = some (getSurveyPacketsForSync store).length ∧
        ∃ rs, r.results = some rs
          ∧ rs.length = (getSurveyPacketsForSync store).length) := by
  constructor
  · intro hemp
    simp [syncAllPendingData, hon, hbusy, hemp]
  · intro hne
    have hie : (getSurveyPacketsForSync store).isEmpty = false := by
      cases hl : getSurveyPacketsForSync store with
      | nil => exact absurd hl hne
      | cons a l => rfl
    obtain ⟨hc, hl⟩ :=
      syncLoop_counts (getSurveyPacketsForSync store) 0 uploadOk nowOf store
    simp only [syncAllPendingData, hon, hbusy, hie, Bool.false_eq_true,
      if_false, if_true, Bool.true_eq_false]
    exact ⟨_, rfl, rfl, hc, rfl, _, rfl, hl⟩

/-- C4 witness: the empty-store early return and a one-packet run. -/
theorem syncAll_result_shape_witness :
    ((syncAllPendingData { isOnline := true, isSyncing := false, syncProgress := 0 }
        [] (fun _ => true) (fun _ => "t")).1
      = Except.ok { success := true, synced := 0, failed := 0
                    total := none, results := none }) ∧
    (∃ r : SyncResult,
      (syncAllPendingData { isOnline := true, isSyncing := false, syncProgress := 0 }
          ((saveSurveyPacket [] exPacketIn "t0").1)
          (fun _ => true) (fun _ => "t")).1 = Except.ok r ∧
      r.success = (r.failed == 0) ∧
      r.synced + r.failed
        = (getSurveyPacketsForSync ((saveSurveyPacket [] exPacketIn "t0").1)).length ∧
      r.total
        = some (getSurveyPacketsForSync ((saveSurveyPacket [] exPacketIn "t0").1)).length ∧
      ∃ rs, r.results = some rs
        ∧ rs.length
          = (getSurveyPacketsForSync ((saveSurveyPacket [] exPacketIn "t0").1)).length) :=
  ⟨(syncAll_result_shape { isOnline := true, isSyncing := false, syncProgress := 0 }
      [] (fun _ => true) (fun _ => "t") rfl rfl).1 rfl,
   (syncAll_result_shape { isOnline := true, isSyncing := false, syncProgress := 0 }
      ((saveSurveyPacket [] exPacketIn "t0").1)
      (fun _ => true) (fun _ => "t") rfl rfl).2 (by decide)⟩

lemma syncAll_post_state (st : SyncState) (store : List StoredPacket)
    (uploadOk : Nat → Bool) (nowOf : Nat → String)
    (h1 : st.isOnline = true) (h2 : st.isSyncing = false) :
    (syncAllPendingData st store uploadOk nowOf).2.1
      = { st with isSyncing := false, syncProgress := 0 } := by
  simp only [syncAllPendingData, h1, h2]
  by_cases he : (getSurveyPacketsForSync store).isEmpty <;> simp [he]

lemma syncAll_isOk (st : SyncState) (store : List StoredPacket)
    (uploadOk : Nat → Bool) (nowOf : Nat → String)
    (h1 : st.isOnline = true) (h2 : st.isSyncing = false) :
    (syncAllPendingData st store uploadOk nowOf).1.isOk = true := by
  simp only [syncAllPendingData, h1, h2]
  by_cases he : (getSurveyPacketsForSync store).isEmpty <;> simp [he, Except.isOk, Except.toBool]

lemma ne_error_of_isOk {e : Except SyncError SyncResult}
    (h : e.isOk = true) (x : SyncError) : e ≠ Except.error x := by
  cases e with
  | ok a => simp
  | error b => simp [Except.isOk, Except.toBool] at h

/-- C5 counterexample: when connectivity is down while a run is already
in flight, `syncAll` fails with the offline error, not the busy error —
the offline guard takes precedence, so 'fails with the busy error
whenever a sync run is already in flight' is false as stated. -/
theorem c5_offline_wins_over_busy :
    (syncAllPendingData { isOnline := false, isSyncing := true, syncProgress := 0 }
        [] (fun _ => true) (fun _ => "t")).1 = Except.error SyncError.offline ∧
    Except.error SyncError.offline
      ≠ (Except.error SyncError.busy : Except SyncError SyncResult) := by
  exact ⟨rfl, fun h => SyncError.noConfusion (Except.error.inj h)⟩

/-- C5 (amended): `syncAll` fails with the offline error whenever
connectivity is down (even if a run is in flight — that guard takes
precedence); when online it fails with the busy error whenever a run is
in flight; both failing guards leave the service state and store
untouched; and every run that passes the guards returns a result (not an
error) with `isSyncing` cleared and progress reset to 0 on exit, so a
subsequent call after the run completes is not rejected as busy. -/
theorem syncAll_guards_and_flag_reset (st : SyncState)
    (store : List StoredPacket) (u1 u2 : Nat → Bool) (n1 n2 : Nat → String) :
    (st.isOnline = false →
      syncAllPendingData st store u1 n1 = (Except.error SyncError.offline, st, store)) ∧
    (st.isOnline = true → st.isSyncing = true →
      syncAllPendingData st store u1 n1 = (Except.error SyncError.busy, st, store)) ∧
    (st.isOnline = true → st.isSyncing = false →
      (syncAllPendingData st store u1 n1).1.isOk = true ∧
      (syncAllPendingData st store u1 n1).2.1.isSyncing = false ∧
      (syncAllPendingData st store u1 n1).2.1.syncProgress = 0 ∧
      (syncAllPendingData (syncAllPendingData st store u1 n1).2.1
          (syncAllPendingData st store u1 n1).2.2 u2 n2).1
        ≠ Except.error SyncError.busy) := by
  refine ⟨?_, ?_, ?_⟩
  · intro h
    simp [syncAllPendingData, h]
  · intro h1 h2
    simp [syncAllPendingData, h1, h2]
  · intro h1 h2
    have hpost := syncAll_post_state st store u1 n1 h1 h2
    refine ⟨syncAll_isOk st store u1 n1 h1 h2, ?_, ?_, ?_⟩
    · rw [hpost]
    · rw [hpost]
    · have hon1 : (syncAllPendingData st store u1 n1).2.1.isOnline = true := by
        rw [hpost]
        exact h1
      have hsy1 : (syncAllPendingData st store u1 n1).2.1.isSyncing = false := by
        rw [hpost]
      exact ne_error_of_isOk
        (syncAll_isOk _ _ u2 n2 hon1 hsy1) SyncError.busy

/-- C5 witness: the three cases of the amended theorem at concrete
states — offline rejection, busy rejection when online, and a completed
run followed by a second call that is not rejected as busy. -/
theorem syncAll_guards_and_flag_reset_witness :
    (syncAllPendingData { isOnline := false, isSyncing := false, syncProgress := 0 }
        [] (fun _ => true) (fun _ => "t")
      = (Except.error SyncError.offline,
         { isOnline := false, isSyncing := false, syncProgress := 0 }, [])) ∧
    (syncAllPendingData { isOnline := true, isSyncing := true, syncProgress := 0 }
        [] (fun _ => true) (fun _ => "t")
      = (Except.error SyncError.busy,
         { isOnline := true, isSyncing := true, syncProgress := 0 }, [])) ∧
    ((syncAllPendingData { isOnline := true, isSyncing := false, syncProgress := 0 }
        ((saveSurveyPacket [] exPacketIn "t0").1) (fun _ => true)
        (fun _ => "t")).1.isOk = true ∧
     (syncAllPendingData { isOnline := true, isSyncing := false, syncProgress := 0 }
        ((saveSurveyPacket [] exPacketIn "t0").1) (fun _ => true)
        (fun _ => "t")).2.1.isSyncing = false ∧
     (syncAllPendingData { isOnline := true, isSyncing := false, syncProgress := 0 }
        ((saveSurveyPacket [] exPacketIn "t0").1) (fun _ => true)
        (fun _ => "t")).2.1.syncProgress = 0 ∧
     (syncAllPendingData
        (syncAllPendingData { isOnline := true, isSyncing := false, syncProgress := 0 }
          ((saveSurveyPacket [] exPacketIn "t0").1) (fun _ => true)
          (fun _ => "t")).2.1
        (syncAllPendingData { isOnline := true, isSyncing := false, syncProgress := 0 }
          ((saveSurveyPacket [] exPacketIn "t0").1) (fun _ => true)
          (fun _ => "t")).2.2 (fun _ => false) (fun _ => "u")).1
       ≠ Except.error SyncError.busy) :=
  ⟨(syncAll_guards_and_flag_reset
      { isOnline := false, isSyncing := false, syncProgress := 0 } []
      (fun _ => true) (fun _ => true) (fun _ => "t") (fun _ => "t")).1 rfl,
   (syncAll_guards_and_flag_reset
      { isOnline := true, isSyncing := true, syncProgress := 0 } []
      (fun _ => true) (fun _ => true) (fun _ => "t") (fun _ => "t")).2.1 rfl rfl,
   (syncAll_guards_and_flag_reset
      { isOnline := true, isSyncing := false, syncProgress := 0 }
      ((saveSurveyPacket [] exPacketIn "t0").1)
      (fun _ => true) (fun _ => false) (fun _ => "t") (fun _ => "u")).2.2 rfl rfl⟩
